import Mathlib

/-!
Verification development for the Color Panel Tool (color_panel.py).

The persistence and diff core of the tool is embedded shallowly:

* Python floats are modelled as exact rationals; Python float equality is
  exact, and so is equality on the rationals, so every strict comparison
  in the source keeps its meaning.
* The JSON text layer of the json library is modelled at token level: the
  config file content is a token stream, json.dump is `dumpDoc` and
  json.load is `parseDoc`.  Lexing of individual numbers and strings is the
  boundary of the json library and is kept abstract inside the tokens.
* Maya scene calls are modelled by a small scene state (named nodes plus
  directed attribute connections), exactly as the guarded calls in
  ensure_place2d_and_ramp use them.
-/

/-- JSON tokens as emitted by json.dump and consumed by json.load.  A
number token keeps the Python int / float distinction of the library. -/
inductive Tok where
  | lbrace
  | rbrace
  | lbrack
  | rbrack
  | colon
  | comma
  | tstr (s : String)
  | tint (n : Int)
  | tnum (q : ℚ)
deriving DecidableEq, Repr

/-- A saved color-block record as the diff engine reads it: the result of
block.get "index" and block.get "rgb" on the parsed JSON dict. -/
structure SavedBlockJ where
  index : Option Int
  rgb : Option (ℚ × ℚ × ℚ)
deriving DecidableEq, Repr

/-- The saved RenderRigControls record: saved_rig.get "curveWidth" and
saved_rig.get "sampleRate". -/
structure SavedRigJ where
  curveWidth : Option ℚ
  sampleRate : Option Int
deriving DecidableEq, Repr

/-- The parsed config document: color-block members keyed by title plus the
reserved RenderRigControls member.  This mirrors the JSON object the tool
reads and writes; block titles are distinct from the reserved key in every
document the tool produces. -/
structure SavedDoc where
  blocks : List (String × SavedBlockJ)
  rig : Option SavedRigJ
deriving DecidableEq, Repr

/-- A Python empty dict is falsy: the document is empty when it has no
members at all. -/
def SavedDoc.isEmpty (d : SavedDoc) : Bool :=
  d.blocks.isEmpty && d.rig.isNone

/-- saved_config.get k with default empty dict. -/
def lookupBlock (d : SavedDoc) (k : String) : SavedBlockJ :=
  match d.blocks.lookup k with
  | some b => b
  | none => ⟨none, none⟩

/-- Token stream of an rgb triple, as json.dump writes the three floats. -/
def dumpRgb (r : ℚ × ℚ × ℚ) : List Tok :=
  [.lbrack, .tnum r.1, .comma, .tnum r.2.1, .comma, .tnum r.2.2, .rbrack]

/-- Token stream of one block value object; members that are absent in the
record are absent in the file. -/
def dumpBlockVal (b : SavedBlockJ) : List Tok :=
  match b.index, b.rgb with
  | none, none => [.lbrace, .rbrace]
  | some n, none => [.lbrace, .tstr "index", .colon, .tint n, .rbrace]
  | some n, some r =>
    [.lbrace, .tstr "index", .colon, .tint n, .comma, .tstr "rgb", .colon] ++
      dumpRgb r ++ [.rbrace]
  | none, some r => [.lbrace, .tstr "rgb", .colon] ++ dumpRgb r ++ [.rbrace]

/-- Token stream of one RenderRigControls value object. -/
def dumpRigVal (r : SavedRigJ) : List Tok :=
  match r.curveWidth, r.sampleRate with
  | none, none => [.lbrace, .rbrace]
  | some q, none => [.lbrace, .tstr "curveWidth", .colon, .tnum q, .rbrace]
  | some q, some n =>
    [.lbrace, .tstr "curveWidth", .colon, .tnum q, .comma,
     .tstr "sampleRate", .colon, .tint n, .rbrace]
  | none, some n => [.lbrace, .tstr "sampleRate", .colon, .tint n, .rbrace]

/-- Member list of the document object, blocks first and the reserved
RenderRigControls member last, comma separated, closed by the brace, in the
insertion order save_config uses. -/
def dumpMembers : List (String × SavedBlockJ) → Option SavedRigJ → List Tok
  | [], none => [.rbrace]
  | [], some r => .tstr "RenderRigControls" :: .colon :: (dumpRigVal r ++ [.rbrace])
  | (k, b) :: bs, rig =>
    .tstr k :: .colon :: (dumpBlockVal b ++
      (match bs, rig with
       | [], none => [.rbrace]
       | bs', rig' => .comma :: dumpMembers bs' rig'))

/-- json.dump of the whole document. -/
def dumpDoc (d : SavedDoc) : List Tok :=
  .lbrace :: dumpMembers d.blocks d.rig

/-- json.load of one block value object.  Returns the record and the
remaining tokens; fails on token streams outside the shapes the tool ever
reads back. -/
def parseBlockVal : List Tok → Option (SavedBlockJ × List Tok)
  | .lbrace :: .rbrace :: rest => some (⟨none, none⟩, rest)
  | .lbrace :: .tstr "index" :: .colon :: .tint n :: .rbrace :: rest =>
    some (⟨some n, none⟩, rest)
  | .lbrace :: .tstr "index" :: .colon :: .tint n :: .comma ::
      .tstr "rgb" :: .colon :: .lbrack :: .tnum r :: .comma :: .tnum g ::
      .comma :: .tnum b :: .rbrack :: .rbrace :: rest =>
    some (⟨some n, some (r, g, b)⟩, rest)
  | .lbrace :: .tstr "rgb" :: .colon :: .lbrack :: .tnum r :: .comma ::
      .tnum g :: .comma :: .tnum b :: .rbrack :: .rbrace :: rest =>
    some (⟨none, some (r, g, b)⟩, rest)
  | _ => none

/-- json.load of one RenderRigControls value object. -/
def parseRigVal : List Tok → Option (SavedRigJ × List Tok)
  | .lbrace :: .rbrace :: rest => some (⟨none, none⟩, rest)
  | .lbrace :: .tstr "curveWidth" :: .colon :: .tnum q :: .rbrace :: rest =>
    some (⟨some q, none⟩, rest)
  | .lbrace :: .tstr "curveWidth" :: .colon :: .tnum q :: .comma ::
      .tstr "sampleRate" :: .colon :: .tint n :: .rbrace :: rest =>
    some (⟨some q, some n⟩, rest)
  | .lbrace :: .tstr "sampleRate" :: .colon :: .tint n :: .rbrace :: rest =>
    some (⟨none, some n⟩, rest)
  | _ => none

/-- Member loop of json.load on the document object: members separated by
commas until the closing brace.  A member keyed RenderRigControls is read
as the rig record, a later one overwrites an earlier one as in a Python
dict; every other member is read as a block record.  The fuel argument
bounds the recursion by the number of members. -/
def parseMembersAux (fuel : Nat) (toks : List Tok) :
    Option ((List (String × SavedBlockJ) × Option SavedRigJ) × List Tok) :=
  match toks with
  | .rbrace :: rest => some (([], none), rest)
  | .tstr k :: .colon :: rest =>
    match fuel with
    | 0 => none
    | fuel' + 1 =>
      if k = "RenderRigControls" then
        match parseRigVal rest with
        | some (r, .rbrace :: rest') => some (([], some r), rest')
        | some (r, .comma :: rest') =>
          match parseMembersAux fuel' rest' with
          | some ((bs2, rig2), rest'') => some ((bs2, some (rig2.getD r)), rest'')
          | none => none
        | _ => none
      else
        match parseBlockVal rest with
        | some (b, .rbrace :: rest') => some (([(k, b)], none), rest')
        | some (b, .comma :: rest') =>
          match parseMembersAux fuel' rest' with
          | some ((bs2, rig2), rest'') => some (((k, b) :: bs2, rig2), rest'')
          | none => none
        | _ => none
  | _ => none

/-- json.load of the whole file content; fails unless the whole stream is
one document object. -/
def parseDoc (toks : List Tok) : Option SavedDoc :=
  match toks with
  | .lbrace :: rest =>
    match parseMembersAux rest.length rest with
    | some ((bs, rig), []) => some ⟨bs, rig⟩
    | _ => none
  | _ => none

/-- The state of the config file on disk: absent, or present with a token
content (which may or may not parse). -/
inductive FileState where
  | absent
  | content (toks : List Tok)
deriving DecidableEq, Repr

/-- read_json_config: returns the parsed document when the file exists and
parses, and the empty dict when the file is absent or anything in opening
or parsing it fails.  The Python function catches every exception, so it
is a total function of the file state. -/
def read_json_config (fs : FileState) : SavedDoc :=
  match fs with
  | .absent => ⟨[], none⟩
  | .content toks =>
    match parseDoc toks with
    | some d => d
    | none => ⟨[], none⟩

/-- How a call to write_json_config can fail: opening the file raises, or
json.dump raises after n chunks of output reached the file. -/
inductive WriteFailure where
  | openFail
  | dumpFailAt (n : Nat)
deriving DecidableEq, Repr

/-- What the user sees after write_json_config: the in-view saved message
on success, a warning on any failure.  The Python except clause swallows
the exception, so the function always returns normally. -/
inductive SaveReport where
  | savedMessage
  | warningShown
deriving DecidableEq, Repr

/-- File content after the write attempt.  The source opens CONFIG_PATH in
truncating write mode and then streams json.dump into it, so a failure to
open leaves the old file, while a failure during dump leaves the file
holding only the prefix of the new serialization written so far. -/
def fileAfterWrite (prev : FileState) (d : SavedDoc) :
    Option WriteFailure → FileState
  | none => .content (dumpDoc d)
  | some .openFail => prev
  | some (.dumpFailAt n) => .content ((dumpDoc d).take n)

/-- write_json_config: the resulting file state and the user-visible
report, given the previous file state, the document, and the failure (if
any) injected by the file system. -/
def write_json_config (prev : FileState) (d : SavedDoc)
    (failure : Option WriteFailure) : FileState × SaveReport :=
  (fileAfterWrite prev d failure,
   match failure with
   | none => .savedMessage
   | some _ => .warningShown)

/-- Shape check for one saved block against the documented external
shapes: an index member holding an int at least 0 and nothing else, or
index -1 together with an rgb triple. -/
def blockShaped (b : SavedBlockJ) : Bool :=
  match b.index, b.rgb with
  | some n, none => decide (0 ≤ n)
  | some n, some _ => decide (n = -1)
  | _, _ => false

/-- Shape check for a whole document against the documented shapes: every
block member is block shaped and not keyed by the reserved title, and the
RenderRigControls member is present with both fields. -/
def docShaped (d : SavedDoc) : Bool :=
  d.blocks.all (fun p => (p.1 != "RenderRigControls") && blockShaped p.2) &&
  (match d.rig with
   | some r => r.curveWidth.isSome && r.sampleRate.isSome
   | none => false)

/-- The per-block widget state that has_unsaved_changes reads: the slider
value and the stored custom rgb of the blocks dict entry. -/
structure BlockInfo where
  sliderVal : Int
  rgb : Option (ℚ × ℚ × ℚ)
deriving DecidableEq, Repr

/-- One entry of the current dict built by has_unsaved_changes. -/
structure CurEntry where
  index : Int
  rgb : Option (ℚ × ℚ × ℚ)
deriving DecidableEq, Repr

/-- The current entry of one block: index slider_val when the slider is
non-negative, else index -1 with the stored custom rgb. -/
def currentEntry (info : BlockInfo) : CurEntry :=
  if 0 ≤ info.sliderVal then ⟨info.sliderVal, none⟩ else ⟨-1, info.rgb⟩

/-- A normalized saved block as normalize_saved_block returns it. -/
structure NormBlock where
  index : Int
  rgb : Option (ℚ × ℚ × ℚ)
deriving DecidableEq, Repr

/-- normalize_saved_block: None for a falsy dict or a missing index; an
index at least 0 keeps only the index; a negative index is normalized to
-1, keeping the rgb triple when present. -/
def normalize_saved_block (block : SavedBlockJ) : Option NormBlock :=
  if block = ⟨none, none⟩ then none
  else
    match block.index with
    | none => none
    | some idx =>
      if 0 ≤ idx then some ⟨idx, none⟩
      else
        match block.rgb with
        | none => some ⟨-1, none⟩
        | some rgb => some ⟨-1, some rgb⟩

/-- The body of the per-title loop of has_unsaved_changes: true when the
title makes the function return true.  A saved record that fails to
normalize counts as changed; then indexes are compared, and for index -1
the rgb values are compared, with the both-None case counting as
unchanged. -/
def blockChanged (saved : SavedDoc) (k : String) (v : CurEntry) : Bool :=
  match normalize_saved_block (lookupBlock saved k) with
  | none => true
  | some sn =>
    if v.index ≠ sn.index then true
    else if v.index = -1 then
      match sn.rgb, v.rgb with
      | none, none => false
      | srgb, crgb => decide (srgb ≠ crgb)
    else false

/-- has_unsaved_changes: loads the persisted document from the config
file, returns true when it is empty, then compares the RenderRigControls
fields with strict equality, then walks the current block entries.  The
cw and sr arguments are the float field and int field values of the
render controls. -/
def has_unsaved_changes (blocks : List (String × BlockInfo)) (cw : ℚ)
    (sr : Int) (fs : FileState) : Bool :=
  let saved := read_json_config fs
  if saved.isEmpty then true
  else if (saved.rig.getD ⟨none, none⟩).curveWidth.getD 0 ≠ cw then true
  else if (saved.rig.getD ⟨none, none⟩).sampleRate.getD 1 ≠ sr then true
  else
    (blocks.map (fun p => (p.1, currentEntry p.2))).any
      (fun p => if p.1 = "RenderRigControls" then false else blockChanged saved p.1 p.2)

/-- The render-settings comparison of has_unsaved_changes succeeds: the
saved curveWidth (default 0) equals the current float field value and the
saved sampleRate (default 1) equals the current int field value. -/
def rigMatches (saved : SavedDoc) (cw : ℚ) (sr : Int) : Prop :=
  (saved.rig.getD ⟨none, none⟩).curveWidth.getD 0 = cw ∧
  (saved.rig.getD ⟨none, none⟩).sampleRate.getD 1 = sr

/-- The spec-side reading of one unchanged block: the saved record under
the title normalizes, the indexes agree, and for index -1 the rgb values
agree element-wise (both absent counts as agreeing). -/
def blockUnchangedSpec (saved : SavedDoc) (k : String) (v : CurEntry) : Prop :=
  ∃ sn, normalize_saved_block (lookupBlock saved k) = some sn ∧
    v.index = sn.index ∧ (v.index = -1 → v.rgb = sn.rgb)

/-- The mutable per-block record of the UI: the slider value, the stored
custom rgb, and lastIndex. -/
structure BlockState where
  sliderVal : Int
  rgb : Option (ℚ × ℚ × ℚ)
  lastIndex : Int
deriving DecidableEq, Repr

/-- update_color_block, the slider drag handler, after the drag moved the
slider to idx: dragging to -1 with no stored custom rgb puts the slider
back to lastIndex; dragging to -1 with a stored rgb keeps -1 and only
redraws the swatch; any other index is recorded in lastIndex.  The stored
rgb is never modified here. -/
def update_color_block (idx : Int) (b : BlockState) : BlockState :=
  if idx = -1 then
    match b.rgb with
    | none => ⟨b.lastIndex, b.rgb, b.lastIndex⟩
    | some _ => ⟨idx, b.rgb, b.lastIndex⟩
  else
    ⟨idx, b.rgb, idx⟩

/-- create_custom_color: when the color editor is confirmed with a choice,
stores it as the custom rgb and moves the slider to -1; a cancelled editor
changes nothing.  lastIndex is not touched. -/
def create_custom_color (choice : Option (ℚ × ℚ × ℚ)) (b : BlockState) : BlockState :=
  match choice with
  | none => b
  | some rgb => ⟨-1, some rgb, b.lastIndex⟩

/-- add_color_index_block, the state of the fresh blocks dict entry: the
slider starts at the saved index (default when absent), the rgb field is
the saved rgb only for saved index -1, and lastIndex falls back to the
default index only when saved index is -1 with a saved rgb present. -/
def add_color_index_block (default_index : Int) (saved : Option SavedBlockJ) : BlockState :=
  let saved_idx : Int :=
    match saved with
    | some s => s.index.getD default_index
    | none => default_index
  let saved_rgb : Option (ℚ × ℚ × ℚ) :=
    match saved with
    | some s => s.rgb
    | none => none
  let last_index : Int :=
    if saved_idx = -1 ∧ saved_rgb ≠ none then default_index else saved_idx
  ⟨saved_idx, if saved_idx = -1 then saved_rgb else none, last_index⟩

/-- apply_color_button only reads the slider and swatch and mutates the
scene; the blocks dict entry is left as it is. -/
def apply_color_button (b : BlockState) : BlockState := b

/-- The invariant claimed for every block record: the custom rgb is stored
exactly when the block shows the custom index -1. -/
def blockStateInv (b : BlockState) : Prop :=
  b.rgb.isSome = true ↔ b.sliderVal = -1

/-- The Maya scene as the guarded calls use it: named nodes with node
types, and directed connections between attribute plugs. -/
structure Scene where
  nodes : List (String × String)
  conns : List (String × String)
deriving DecidableEq, Repr

/-- cmds.objExists. -/
def objExists (s : Scene) (n : String) : Bool :=
  s.nodes.any (fun p => p.1 = n)

/-- cmds.isConnected on a source plug and a destination plug. -/
def isConnected (s : Scene) (src dst : String) : Bool :=
  s.conns.any (fun c => c.1 = src && c.2 = dst)

/-- Whether the destination plug already has an incoming connection. -/
def dstOccupied (s : Scene) (dst : String) : Bool :=
  s.conns.any (fun c => c.2 = dst)

/-- cmds.createNode, as used here: only called under an objExists guard,
so it adds the named node. -/
def createNode (s : Scene) (ntype n : String) : Scene :=
  ⟨(n, ntype) :: s.nodes, s.conns⟩

/-- cmds.connectAttr without force: Maya raises when the destination is
already connected, the source catches the exception, so the scene is
unchanged; otherwise the connection is added. -/
def connectAttrNF (s : Scene) (src dst : String) : Scene :=
  if dstOccupied s dst then s else ⟨s.nodes, (src, dst) :: s.conns⟩

/-- cmds.connectAttr with force: an existing incoming connection of the
destination is replaced. -/
def connectAttrF (s : Scene) (src dst : String) : Scene :=
  ⟨s.nodes, (src, dst) :: s.conns.filter (fun c => !(c.2 = dst))⟩

/-- One guarded node creation of ensure_place2d_and_ramp. -/
def ensureNode (ntype n : String) (s : Scene) : Scene :=
  if objExists s n then s else createNode s ntype n

/-- One guarded connection without force. -/
def ensureConnNF (src dst : String) (s : Scene) : Scene :=
  if isConnected s src dst then s else connectAttrNF s src dst

/-- One guarded connection with force. -/
def ensureConnF (src dst : String) (s : Scene) : Scene :=
  if isConnected s src dst then s else connectAttrF s src dst

/-- ensure_place2d_and_ramp: create the ramp and the place2dTexture when
absent, wire outUV and outUvFilterSize into the ramp without force, and
wire the ramp outColor into the curve shader attribute with force, each
step guarded by an existence or connection check. -/
def ensure_place2d_and_ramp (ramp_name texture_name curve_shader_attr : String)
    (s : Scene) : Scene :=
  ensureConnF (ramp_name ++ ".outColor") curve_shader_attr
    (ensureConnNF (texture_name ++ ".outUvFilterSize") (ramp_name ++ ".uvFilterSize")
      (ensureConnNF (texture_name ++ ".outUV") (ramp_name ++ ".uv")
        (ensureNode "place2dTexture" texture_name
          (ensureNode "ramp" ramp_name s))))

/-- safe_name: the last path component after the pipe separators, with
every character outside letters, digits and underscore replaced by an
underscore. -/
def safe_name (name : String) : String :=
  String.mk (((name.splitOn "|").getLastD name).data.map
    (fun c => if c.isAlphanum || c = '_' then c else '_'))

/-- unique_node_name: the base name extended by an underscore and the
first eight characters of a fresh uuid string. -/
def unique_node_name (base_name : String) (u : String) : String :=
  base_name ++ "_" ++ String.mk (u.data.take 8)

/-- The ramp name chosen by render_selected_controls for an object: a
generated unique name when any shape is referenced, else the deterministic
name derived from the object name. -/
def ramp_name_for (obj : String) (is_referenced : Bool) (u : String) : String :=
  if is_referenced then unique_node_name ("ramp_" ++ safe_name obj) u
  else "ramp_" ++ safe_name obj

/-- The place2dTexture name chosen by render_selected_controls. -/
def texture_name_for (obj : String) (is_referenced : Bool) (u : String) : String :=
  if is_referenced then unique_node_name ("place2dTexture_" ++ safe_name obj) u
  else "place2dTexture_" ++ safe_name obj

/-- How many nodes of the scene carry the given name. -/
def nodeCount (s : Scene) (n : String) : Nat :=
  s.nodes.countP (fun p => p.1 = n)

/-- A JSON value, for stating the exact shape of what save_config writes. -/
inductive JVal where
  | jnull
  | jint (n : Int)
  | jnum (q : ℚ)
  | jstr (s : String)
  | jarr (xs : List JVal)
  | jobj (members : List (String × JVal))

/-- The indexed color palette of the tool. -/
def INDEXED_COLORS : List (Int × String) :=
  [(0, "Gray"), (1, "Black"), (2, "Dark Gray"), (3, "Light Gray"), (4, "Red"),
   (5, "Dark Blue"), (6, "Bright Blue"), (7, "Green 1"), (8, "Dark Purple"),
   (9, "Pink"), (10, "Brown"), (11, "Dark Brown"), (12, "Dark Red"),
   (13, "Bright Red"), (14, "Bright Green"), (15, "Blue 1"), (16, "White"),
   (17, "Yellow"), (18, "Light Blue"), (19, "Light Green"), (20, "Light Pink"),
   (21, "Light Orange"), (22, "Light Yellow"), (23, "Green 2"),
   (24, "Dark Orange"), (25, "Dark Yellow"), (26, "Green 3"), (27, "Green 4"),
   (28, "Blue 2"), (29, "Blue 3"), (30, "Purple"), (31, "Dark Pink")]

/-- INDEXED_COLORS.get idx with the fallback label. -/
def indexed_color_name (idx : Int) : String :=
  match INDEXED_COLORS.lookup idx with
  | some s => s
  | none => "Index " ++ toString idx

/-- The rgb value save_config writes for a custom block: the stored list,
or null when the blocks dict holds no custom rgb. -/
def jvalOfRgb (rgb : Option (ℚ × ℚ × ℚ)) : JVal :=
  match rgb with
  | none => .jnull
  | some (r, g, b) => .jarr [.jnum r, .jnum g, .jnum b]

/-- The block value save_config writes: for a non-negative slider value an
object with the index and the palette name, else index -1 with the stored
rgb or null. -/
def save_block_val (idx : Int) (rgb : Option (ℚ × ℚ × ℚ)) : JVal :=
  if 0 ≤ idx then
    .jobj [("index", .jint idx), ("name", .jstr (indexed_color_name idx))]
  else
    .jobj [("index", .jint (-1)), ("rgb", jvalOfRgb rgb)]

/-- save_config: the JSON document written to the config file, one member
per block in order plus the RenderRigControls member last. -/
def save_config (blocks : List (String × BlockInfo)) (cw : ℚ) (sr : Int) :
    List (String × JVal) :=
  blocks.map (fun p => (p.1, save_block_val p.2.sliderVal p.2.rgb)) ++
    [("RenderRigControls",
      .jobj [("curveWidth", .jnum cw), ("sampleRate", .jint sr)])]

/-- The block value shape the spec documents: exactly an index member
holding an int at least 0, or exactly index -1 with an rgb member holding
a triple of floats. -/
def documentedBlockShape (v : JVal) : Prop :=
  (∃ n : Int, 0 ≤ n ∧ v = .jobj [("index", .jint n)]) ∨
  (∃ r g b : ℚ,
    v = .jobj [("index", .jint (-1)),
               ("rgb", .jarr [.jnum r, .jnum g, .jnum b])])

/-- The block value shapes save_config actually produces: index with the
palette name member for a non-negative index, or index -1 with an rgb
member holding a triple or null. -/
def actualBlockShape (v : JVal) : Prop :=
  (∃ n : Int, ∃ s : String, 0 ≤ n ∧
    v = .jobj [("index", .jint n), ("name", .jstr s)]) ∨
  (∃ r g b : ℚ,
    v = .jobj [("index", .jint (-1)),
               ("rgb", .jarr [.jnum r, .jnum g, .jnum b])]) ∨
  (v = .jobj [("index", .jint (-1)), ("rgb", .jnull)])

/-- The RenderRigControls value shape: exactly a curveWidth float and a
sampleRate int. -/
def rigValShape (v : JVal) : Prop :=
  ∃ q : ℚ, ∃ n : Int,
    v = .jobj [("curveWidth", .jnum q), ("sampleRate", .jint n)]

/-- Claim C7: read_json_config returns the empty document whenever the
config file is absent or its content fails to parse as JSON, and it is a
total function of the file state, so it never raises. -/
theorem claim_C7 :
    read_json_config .absent = ⟨[], none⟩ ∧
    ∀ toks, parseDoc toks = none → read_json_config (.content toks) = ⟨[], none⟩ := by
  refine ⟨rfl, fun toks h => ?_⟩
  simp [read_json_config, h]

theorem claim_C7_witness :
    parseDoc [Tok.comma] = none ∧
    read_json_config (.content [Tok.comma]) = ⟨[], none⟩ :=
  ⟨rfl, claim_C7.2 [Tok.comma] rfl⟩

/-- Claim C2: whenever the persisted document is empty or the file is
missing, has_unsaved_changes returns true, for every current UI state. -/
theorem claim_C2 (blocks : List (String × BlockInfo)) (cw : ℚ) (sr : Int)
    (fs : FileState) (h : (read_json_config fs).isEmpty = true) :
    has_unsaved_changes blocks cw sr fs = true := by
  simp [has_unsaved_changes, h]

theorem claim_C2_witness :
    (read_json_config .absent).isEmpty = true ∧
    has_unsaved_changes [("A", (⟨5, none⟩ : BlockInfo))] 0 1 .absent = true :=
  ⟨rfl, claim_C2 [("A", ⟨5, none⟩)] 0 1 .absent rfl⟩

theorem claim_C4_counterexample :
    (write_json_config
        (.content (dumpDoc ⟨[("A", ⟨some 5, none⟩)], some ⟨some 1, some 1⟩⟩))
        ⟨[("A", ⟨some 3, none⟩)], some ⟨some 2, some 2⟩⟩
        (some (.dumpFailAt 0))).2 = .warningShown ∧
    (write_json_config
        (.content (dumpDoc ⟨[("A", ⟨some 5, none⟩)], some ⟨some 1, some 1⟩⟩))
        ⟨[("A", ⟨some 3, none⟩)], some ⟨some 2, some 2⟩⟩
        (some (.dumpFailAt 0))).1 ≠
      .content (dumpDoc ⟨[("A", ⟨some 5, none⟩)], some ⟨some 1, some 1⟩⟩) := by
  constructor
  · rfl
  · decide

/-- Claim C4, amended: every failing write is reported with a warning and
returns normally; a failure to open leaves the previous file untouched;
but a failure after opening leaves the truncated or partially written
file, because the file is opened in truncating write mode before json.dump
streams into it.  A successful write replaces the file content with the
serialized document and shows the saved message. -/
theorem claim_C4_amended :
    (∀ (f : WriteFailure) (prev : FileState) (d : SavedDoc),
      (write_json_config prev d (some f)).2 = .warningShown) ∧
    (∀ (prev : FileState) (d : SavedDoc),
      (write_json_config prev d (some .openFail)).1 = prev) ∧
    (∀ (prev : FileState) (d : SavedDoc),
      (write_json_config prev d none).1 = .content (dumpDoc d) ∧
      (write_json_config prev d none).2 = .savedMessage) :=
  ⟨fun _ _ _ => rfl, fun _ _ => rfl, fun _ _ => ⟨rfl, rfl⟩⟩

theorem claim_C5_counterexample :
    ¬ blockStateInv
        (update_color_block 5
          (create_custom_color (some (1, 0, 0))
            (add_color_index_block 17 none))) := by
  simp [blockStateInv, add_color_index_block, create_custom_color, update_color_block]

/-- Claim C5, amended: the stored custom rgb is never cleared, so the
claimed two-way invariant fails once a custom color exists and the slider
is dragged back to a palette index, and block construction from a saved
record with index -1 and no rgb yields index -1 without rgb.  What the
operations do guarantee: creating a custom color stores it and moves the
slider to -1 (establishing the invariant at that moment); dragging to any
index other than -1 shows it and records it in lastIndex while keeping the
stored rgb; dragging to -1 with no stored rgb reverts the slider to
lastIndex; dragging to -1 with a stored rgb keeps the custom selection;
applying a color never modifies the block record. -/
theorem claim_C5_amended :
    (∀ (b : BlockState) (rgb : ℚ × ℚ × ℚ),
      create_custom_color (some rgb) b = ⟨-1, some rgb, b.lastIndex⟩ ∧
      blockStateInv (create_custom_color (some rgb) b)) ∧
    (∀ (b : BlockState) (idx : Int), idx ≠ -1 →
      update_color_block idx b = ⟨idx, b.rgb, idx⟩) ∧
    (∀ b : BlockState, b.rgb = none →
      update_color_block (-1) b = ⟨b.lastIndex, none, b.lastIndex⟩) ∧
    (∀ (b : BlockState) (r : ℚ × ℚ × ℚ), b.rgb = some r →
      update_color_block (-1) b = ⟨-1, some r, b.lastIndex⟩) ∧
    (∀ b : BlockState, apply_color_button b = b) := by
  refine ⟨fun b rgb => ⟨rfl, ?_⟩, fun b idx h => ?_, fun b h => ?_, fun b r h => ?_,
    fun b => rfl⟩
  · simp [blockStateInv, create_custom_color]
  · simp [update_color_block, h]
  · simp [update_color_block, h]
  · simp [update_color_block, h]

theorem claim_C5_witness :
    update_color_block 5 ⟨0, some (1, 0, 0), 17⟩ = ⟨5, some (1, 0, 0), 5⟩ ∧
    update_color_block (-1) ⟨0, none, 17⟩ = ⟨17, none, 17⟩ :=
  ⟨claim_C5_amended.2.1 ⟨0, some (1, 0, 0), 17⟩ 5 (by decide),
   claim_C5_amended.2.2.1 ⟨0, none, 17⟩ rfl⟩

theorem claim_C6_counterexample :
    ("A", save_block_val 5 none) ∈ save_config [("A", (⟨5, none⟩ : BlockInfo))] 1 1 ∧
    ¬ documentedBlockShape (save_block_val 5 none) := by
  constructor
  · simp [save_config]
  · have hv : save_block_val 5 none =
        .jobj [("index", .jint 5), ("name", .jstr "Dark Blue")] := rfl
    rw [hv]
    rintro (⟨n, hn, h⟩ | ⟨r, g, b, h⟩) <;> simp at h

/-- Claim C6, amended: every block value save_config writes has the shape
of an index member with the palette name member for a non-negative index,
or index -1 with an rgb member holding a triple or null; the
RenderRigControls member has exactly a curveWidth float and a sampleRate
int. -/
theorem claim_C6_amended (blocks : List (String × BlockInfo)) (cw : ℚ) (sr : Int) :
    ∀ p ∈ save_config blocks cw sr, actualBlockShape p.2 ∨ rigValShape p.2 := by
  intro p hp
  rw [save_config, List.mem_append] at hp
  rcases hp with hp | hp
  · left
    obtain ⟨q, _, rfl⟩ := List.mem_map.1 hp
    unfold actualBlockShape save_block_val
    by_cases h : 0 ≤ q.2.sliderVal
    · rw [if_pos h]
      exact Or.inl ⟨q.2.sliderVal, indexed_color_name q.2.sliderVal, h, rfl⟩
    · rw [if_neg h]
      cases hr : q.2.rgb with
      | none => exact Or.inr (Or.inr (by simp [jvalOfRgb]))
      | some t =>
        obtain ⟨r, g, b⟩ := t
        exact Or.inr (Or.inl ⟨r, g, b, by simp [jvalOfRgb]⟩)
  · simp only [List.mem_singleton] at hp
    subst hp
    exact Or.inr ⟨cw, sr, rfl⟩

theorem claim_C6_witness :
    ("A", save_block_val (-1) none) ∈
      save_config [("A", (⟨-1, none⟩ : BlockInfo))] 1 1 ∧
    (actualBlockShape (save_block_val (-1) none) ∨
      rigValShape (save_block_val (-1) none)) := by
  have hm : ("A", save_block_val (-1) none) ∈
      save_config [("A", (⟨-1, none⟩ : BlockInfo))] 1 1 := by
    simp [save_config]
  exact ⟨hm, claim_C6_amended [("A", ⟨-1, none⟩)] 1 1 _ hm⟩

theorem parseBlockVal_dump (b : SavedBlockJ) (rest : List Tok) :
    parseBlockVal (dumpBlockVal b ++ rest) = some (b, rest) := by
  obtain ⟨i, r⟩ := b
  cases i <;> cases r <;> rfl

theorem parseRigVal_dump (r : SavedRigJ) (rest : List Tok) :
    parseRigVal (dumpRigVal r ++ rest) = some (r, rest) := by
  obtain ⟨c, s⟩ := r
  cases c <;> cases s <;> rfl

theorem dumpBlockVal_length (b : SavedBlockJ) : 2 ≤ (dumpBlockVal b).length := by
  obtain ⟨i, r⟩ := b
  cases i <;> cases r <;> simp [dumpBlockVal, dumpRgb]

theorem parseMembersAux_dump (bs : List (String × SavedBlockJ))
    (rig : Option SavedRigJ) (fuel : Nat) (hf : bs.length < fuel)
    (hk : ∀ p ∈ bs, p.1 ≠ "RenderRigControls") :
    parseMembersAux fuel (dumpMembers bs rig) = some ((bs, rig), []) := by
  induction bs generalizing fuel with
  | nil =>
    cases rig with
    | none => simp [dumpMembers, parseMembersAux]
    | some r =>
      cases fuel with
      | zero => simp at hf
      | succ f => simp [dumpMembers, parseMembersAux, parseRigVal_dump]
  | cons hd tl ih =>
    obtain ⟨k, b⟩ := hd
    have hk1 : ¬ k = "RenderRigControls" := hk (k, b) (by simp)
    have hk2 : ∀ p ∈ tl, p.1 ≠ "RenderRigControls" :=
      fun p hp => hk p (List.mem_cons_of_mem _ hp)
    cases fuel with
    | zero => simp at hf
    | succ f =>
      simp only [List.length_cons] at hf
      have hf2 : tl.length < f := by omega
      rcases tl with _ | ⟨t, ts⟩
      · cases rig with
        | none => simp [dumpMembers, parseMembersAux, hk1, parseBlockVal_dump]
        | some r =>
          have hrec := ih f hf2 (fun p hp => absurd hp (List.not_mem_nil p))
          simp only [dumpMembers] at hrec
          simp [dumpMembers, parseMembersAux, hk1, parseBlockVal_dump, hrec]
      · have hrec := ih f hf2 hk2
        simp only [dumpMembers] at hrec ⊢
        simp [parseMembersAux, hk1, parseBlockVal_dump, hrec]

theorem dumpMembers_length (bs : List (String × SavedBlockJ))
    (rig : Option SavedRigJ) : bs.length < (dumpMembers bs rig).length := by
  induction bs with
  | nil =>
    cases rig with
    | none => simp [dumpMembers]
    | some r =>
      obtain ⟨c, s⟩ := r
      cases c <;> cases s <;> simp [dumpMembers, dumpRigVal]
  | cons hd tl ih =>
    obtain ⟨k, b⟩ := hd
    have h2 := dumpBlockVal_length b
    rcases tl with _ | ⟨t, ts⟩
    · cases rig with
      | none =>
        simp only [dumpMembers, List.length_cons, List.length_append,
          List.length_nil]
        omega
      | some r =>
        have h3 := ih
        simp only [dumpMembers, List.length_cons, List.length_append,
          List.length_nil] at h3 ⊢
        omega
    · have h3 := ih
      simp only [dumpMembers, List.length_cons, List.length_append,
        List.length_nil] at h3 ⊢
      omega

theorem parseDoc_dumpDoc (d : SavedDoc)
    (hk : ∀ p ∈ d.blocks, p.1 ≠ "RenderRigControls") :
    parseDoc (dumpDoc d) = some d := by
  obtain ⟨bs, rig⟩ := d
  have h1 := dumpMembers_length bs rig
  simp only [dumpDoc, parseDoc]
  rw [parseMembersAux_dump bs rig _ h1 hk]

/-- Claim C8: for every config document containing only the documented
shapes, writing it with write_json_config and loading it back with
read_json_config yields a document equal to the one saved. -/
theorem claim_C8 (prev : FileState) (d : SavedDoc) (h : docShaped d = true) :
    read_json_config (write_json_config prev d none).1 = d := by
  have hk : ∀ p ∈ d.blocks, p.1 ≠ "RenderRigControls" := by
    simp only [docShaped, Bool.and_eq_true, List.all_eq_true, bne_iff_ne] at h
    exact fun p hp => (h.1 p hp).1
  simp [write_json_config, fileAfterWrite, read_json_config, parseDoc_dumpDoc d hk]

theorem claim_C8_witness :
    docShaped ⟨[("A", ⟨some 5, none⟩)], some ⟨some 1, some 2⟩⟩ = true ∧
    read_json_config
        (write_json_config .absent
          ⟨[("A", ⟨some 5, none⟩)], some ⟨some 1, some 2⟩⟩ none).1 =
      ⟨[("A", ⟨some 5, none⟩)], some ⟨some 1, some 2⟩⟩ :=
  ⟨by decide, claim_C8 .absent _ (by decide)⟩
theorem blockChanged_false_iff (saved : SavedDoc) (k : String) (v : CurEntry) :
    blockChanged saved k v = false ↔ blockUnchangedSpec saved k v := by
  cases hn : normalize_saved_block (lookupBlock saved k) with
  | none => simp [blockChanged, blockUnchangedSpec, hn]
  | some sn =>
    simp only [blockChanged, blockUnchangedSpec, hn, Option.some.injEq]
    have hm : (match sn.rgb, v.rgb with
               | none, none => false
               | srgb, crgb => decide (srgb ≠ crgb)) = decide (sn.rgb ≠ v.rgb) := by
      cases sn.rgb <;> cases v.rgb <;> simp
    rw [hm]
    by_cases h1 : v.index = sn.index
    · by_cases h2 : v.index = -1
      · rw [if_neg (not_not_intro h1), if_pos h2, decide_eq_false_iff_not, not_not]
        constructor
        · intro h
          exact ⟨sn, rfl, h1, fun _ => h.symm⟩
        · rintro ⟨sn', rfl, -, hr⟩
          exact (hr h2).symm
      · rw [if_neg (not_not_intro h1), if_neg h2]
        constructor
        · intro _
          exact ⟨sn, rfl, h1, fun hc => absurd hc h2⟩
        · intro _
          rfl
    · rw [if_pos h1]
      constructor
      · intro h
        exact absurd h (by decide)
      · rintro ⟨sn', rfl, hi, -⟩
        exact absurd hi h1

theorem has_unsaved_changes_false_iff (blocks : List (String × BlockInfo))
    (cw : ℚ) (sr : Int) (fs : FileState) :
    has_unsaved_changes blocks cw sr fs = false ↔
      ((read_json_config fs).isEmpty = false ∧
       rigMatches (read_json_config fs) cw sr ∧
       ∀ p ∈ blocks, p.1 = "RenderRigControls" ∨
         blockUnchangedSpec (read_json_config fs) p.1 (currentEntry p.2)) := by
  cases h1 : (read_json_config fs).isEmpty with
  | true =>
    have hL : has_unsaved_changes blocks cw sr fs = true := by
      simp [has_unsaved_changes, h1]
    rw [hL]
    simp
  | false =>
    by_cases h2 : ((read_json_config fs).rig.getD ⟨none, none⟩).curveWidth.getD 0 = cw
    · by_cases h3 : ((read_json_config fs).rig.getD ⟨none, none⟩).sampleRate.getD 1 = sr
      · have hL : has_unsaved_changes blocks cw sr fs =
            (blocks.map (fun p => (p.1, currentEntry p.2))).any
              (fun p => if p.1 = "RenderRigControls" then false
                        else blockChanged (read_json_config fs) p.1 p.2) := by
          simp [has_unsaved_changes, h1, h2, h3]
        rw [hL, List.any_eq_false]
        constructor
        · intro h
          refine ⟨rfl, ⟨h2, h3⟩, fun p hp => ?_⟩
          have hb := h (p.1, currentEntry p.2) (List.mem_map_of_mem _ hp)
          by_cases hres : p.1 = "RenderRigControls"
          · exact Or.inl hres
          · simp only [hres, if_false, Bool.not_eq_true] at hb
            exact Or.inr ((blockChanged_false_iff _ _ _).1 hb)
        · rintro ⟨-, -, h⟩ x hx
          obtain ⟨p, hp, rfl⟩ := List.mem_map.1 hx
          rcases h p hp with hres | hun
          · simp [hres]
          · by_cases hres : p.1 = "RenderRigControls"
            · simp [hres]
            · simp [hres, (blockChanged_false_iff _ _ _).2 hun]
      · have hL : has_unsaved_changes blocks cw sr fs = true := by
          simp [has_unsaved_changes, h1, h2, h3]
        rw [hL]
        simp [rigMatches, h3]
    · have hL : has_unsaved_changes blocks cw sr fs = true := by
        simp [has_unsaved_changes, h1, h2]
      rw [hL]
      simp [rigMatches, h2]

/-- Claim C1: has_unsaved_changes returns false exactly when the saved
document is nonempty, the render settings match, and every current block
title passes the normalize-and-compare check (titles equal to the reserved
key are skipped); any mismatch or absent title yields true.  In
particular, for current A with index 5 and saved A with index 5 and
matching render settings it returns false. -/
theorem claim_C1 :
    (∀ (blocks : List (String × BlockInfo)) (cw : ℚ) (sr : Int) (fs : FileState),
      has_unsaved_changes blocks cw sr fs = false ↔
        ((read_json_config fs).isEmpty = false ∧
         rigMatches (read_json_config fs) cw sr ∧
         ∀ p ∈ blocks, p.1 = "RenderRigControls" ∨
           blockUnchangedSpec (read_json_config fs) p.1 (currentEntry p.2))) ∧
    has_unsaved_changes [("A", ⟨5, none⟩)] 1 1
        (.content (dumpDoc ⟨[("A", ⟨some 5, none⟩)], some ⟨some 1, some 1⟩⟩)) =
      false := by
  refine ⟨has_unsaved_changes_false_iff, ?_⟩
  decide

/-- Claim C3: the render-settings comparison uses exact equality with no
tolerance, so any difference in the stored curveWidth or sampleRate makes
has_unsaved_changes return true, and rgb triples are compared
element-wise, so 0.3 against 0.30001 yields true. -/
theorem claim_C3 :
    (∀ (blocks : List (String × BlockInfo)) (cw : ℚ) (sr : Int) (fs : FileState),
      ((read_json_config fs).rig.getD ⟨none, none⟩).curveWidth.getD 0 ≠ cw →
      has_unsaved_changes blocks cw sr fs = true) ∧
    (∀ (blocks : List (String × BlockInfo)) (cw : ℚ) (sr : Int) (fs : FileState),
      ((read_json_config fs).rig.getD ⟨none, none⟩).sampleRate.getD 1 ≠ sr →
      has_unsaved_changes blocks cw sr fs = true) ∧
    has_unsaved_changes
        [("A", ⟨-1, some (mkRat 1 10, mkRat 2 10, mkRat 3 10)⟩)] 1 1
        (.content (dumpDoc
          ⟨[("A", ⟨some (-1), some (mkRat 1 10, mkRat 2 10, mkRat 30001 100000)⟩)],
           some ⟨some 1, some 1⟩⟩)) = true := by
  refine ⟨fun blocks cw sr fs hne => ?_, fun blocks cw sr fs hne => ?_, by decide⟩
  · cases h1 : (read_json_config fs).isEmpty with
    | true => simp [has_unsaved_changes, h1]
    | false => simp [has_unsaved_changes, h1, hne]
  · cases h1 : (read_json_config fs).isEmpty with
    | true => simp [has_unsaved_changes, h1]
    | false => simp [has_unsaved_changes, h1, hne]

theorem claim_C3_witness :
    ((read_json_config
        (.content (dumpDoc ⟨[], some ⟨some 2, some 1⟩⟩))).rig.getD
          ⟨none, none⟩).curveWidth.getD 0 ≠ (1 : ℚ) ∧
    has_unsaved_changes [] 1 1 (.content (dumpDoc ⟨[], some ⟨some 2, some 1⟩⟩)) =
      true :=
  ⟨by decide, claim_C3.1 [] 1 1 _ (by decide)⟩

/-- Claim C10: a block whose saved record has index -1 without rgb and
whose current state is index -1 without rgb is treated as unchanged: the
per-title check passes, and a document consisting of such a block with
matching render settings yields false overall. -/
theorem claim_C10 :
    (∀ (saved : SavedDoc) (k : String),
      lookupBlock saved k = ⟨some (-1), none⟩ →
      blockChanged saved k (currentEntry ⟨-1, none⟩) = false) ∧
    has_unsaved_changes [("A", ⟨-1, none⟩)] 1 1
        (.content (dumpDoc ⟨[("A", ⟨some (-1), none⟩)], some ⟨some 1, some 1⟩⟩)) =
      false := by
  refine ⟨fun saved k h => ?_, by decide⟩
  simp only [blockChanged, h]
  rfl

theorem claim_C10_witness :
    lookupBlock ⟨[("B", ⟨some (-1), none⟩)], none⟩ "B" = ⟨some (-1), none⟩ ∧
    blockChanged ⟨[("B", ⟨some (-1), none⟩)], none⟩ "B"
      (currentEntry ⟨-1, none⟩) = false :=
  ⟨rfl, claim_C10.1 ⟨[("B", ⟨some (-1), none⟩)], none⟩ "B" rfl⟩

theorem nodes_connectAttrNF (s : Scene) (a b : String) :
    (connectAttrNF s a b).nodes = s.nodes := by
  unfold connectAttrNF
  split <;> rfl

theorem nodes_ensureConnNF (a b : String) (s : Scene) :
    (ensureConnNF a b s).nodes = s.nodes := by
  unfold ensureConnNF
  split
  · rfl
  · exact nodes_connectAttrNF s a b

theorem nodes_ensureConnF (a b : String) (s : Scene) :
    (ensureConnF a b s).nodes = s.nodes := by
  unfold ensureConnF
  split <;> rfl

theorem objExists_ensureConnNF (a b n : String) (s : Scene) :
    objExists (ensureConnNF a b s) n = objExists s n := by
  unfold objExists
  rw [nodes_ensureConnNF]

theorem objExists_ensureConnF (a b n : String) (s : Scene) :
    objExists (ensureConnF a b s) n = objExists s n := by
  unfold objExists
  rw [nodes_ensureConnF]

theorem objExists_ensureNode_self (ty n : String) (s : Scene) :
    objExists (ensureNode ty n s) n = true := by
  unfold ensureNode
  split
  · assumption
  · simp [objExists, createNode]

theorem objExists_ensureNode_mono (ty n m : String) (s : Scene)
    (h : objExists s m = true) : objExists (ensureNode ty n s) m = true := by
  unfold ensureNode
  split
  · exact h
  · simp only [objExists, createNode, List.any_cons, Bool.or_eq_true]
    exact Or.inr h

theorem isConnected_imp_dstOccupied {s : Scene} {a b : String}
    (h : isConnected s a b = true) : dstOccupied s b = true := by
  simp only [isConnected, List.any_eq_true, Bool.and_eq_true, decide_eq_true_eq] at h
  obtain ⟨c, hc, -, h2⟩ := h
  simp only [dstOccupied, List.any_eq_true, decide_eq_true_eq]
  exact ⟨c, hc, h2⟩

theorem dstOccupied_ensureConnNF_self (a b : String) (s : Scene) :
    dstOccupied (ensureConnNF a b s) b = true := by
  unfold ensureConnNF
  split
  · exact isConnected_imp_dstOccupied (by assumption)
  · unfold connectAttrNF
    split
    · assumption
    · simp [dstOccupied]

theorem dstOccupied_mono_ensureConnNF (a b d : String) (s : Scene)
    (h : dstOccupied s d = true) : dstOccupied (ensureConnNF a b s) d = true := by
  unfold ensureConnNF connectAttrNF
  split
  · exact h
  · split
    · exact h
    · simp only [dstOccupied, List.any_cons, Bool.or_eq_true]
      exact Or.inr h

theorem dstOccupied_mono_ensureConnF (a b d : String) (s : Scene)
    (h : dstOccupied s d = true) : dstOccupied (ensureConnF a b s) d = true := by
  unfold ensureConnF connectAttrF
  split
  · exact h
  · simp only [dstOccupied, List.any_eq_true, decide_eq_true_eq] at h ⊢
    obtain ⟨c, hc, hcd⟩ := h
    by_cases hd : d = b
    · exact ⟨(a, b), List.mem_cons_self _ _, hd.symm⟩
    · refine ⟨c, List.mem_cons_of_mem _ ?_, hcd⟩
      rw [List.mem_filter]
      exact ⟨hc, by simp [hcd, hd]⟩

theorem isConnected_ensureConnF_self (a b : String) (s : Scene) :
    isConnected (ensureConnF a b s) a b = true := by
  unfold ensureConnF
  split
  · assumption
  · simp [isConnected, connectAttrF]

theorem ensureNode_noop (ty n : String) (s : Scene)
    (h : objExists s n = true) : ensureNode ty n s = s := by
  unfold ensureNode
  rw [if_pos h]

theorem ensureConnNF_noop (a b : String) (s : Scene)
    (h : dstOccupied s b = true) : ensureConnNF a b s = s := by
  unfold ensureConnNF
  split
  · rfl
  · unfold connectAttrNF
    rw [if_pos h]

theorem ensureConnF_noop (a b : String) (s : Scene)
    (h : isConnected s a b = true) : ensureConnF a b s = s := by
  unfold ensureConnF
  rw [if_pos h]

theorem ensure_noop_of_established (r t a : String) (s : Scene)
    (h1 : objExists s r = true) (h2 : objExists s t = true)
    (h3 : dstOccupied s (r ++ ".uv") = true)
    (h4 : dstOccupied s (r ++ ".uvFilterSize") = true)
    (h5 : isConnected s (r ++ ".outColor") a = true) :
    ensure_place2d_and_ramp r t a s = s := by
  unfold ensure_place2d_and_ramp
  rw [ensureNode_noop _ _ _ h1, ensureNode_noop _ _ _ h2,
      ensureConnNF_noop _ _ _ h3, ensureConnNF_noop _ _ _ h4,
      ensureConnF_noop _ _ _ h5]

theorem ensure_nodes_eq (r t a : String) (s : Scene) :
    (ensure_place2d_and_ramp r t a s).nodes =
      (ensureNode "place2dTexture" t (ensureNode "ramp" r s)).nodes := by
  unfold ensure_place2d_and_ramp
  rw [nodes_ensureConnF, nodes_ensureConnNF, nodes_ensureConnNF]

theorem ensure_objExists_ramp (r t a : String) (s : Scene) :
    objExists (ensure_place2d_and_ramp r t a s) r = true := by
  have h : objExists (ensureNode "place2dTexture" t (ensureNode "ramp" r s)) r =
      true :=
    objExists_ensureNode_mono _ _ _ _ (objExists_ensureNode_self _ _ _)
  unfold objExists at h ⊢
  rw [ensure_nodes_eq]
  exact h

theorem ensure_objExists_texture (r t a : String) (s : Scene) :
    objExists (ensure_place2d_and_ramp r t a s) t = true := by
  have h : objExists (ensureNode "place2dTexture" t (ensureNode "ramp" r s)) t =
      true :=
    objExists_ensureNode_self _ _ _
  unfold objExists at h ⊢
  rw [ensure_nodes_eq]
  exact h

theorem ensure_occupied_uv (r t a : String) (s : Scene) :
    dstOccupied (ensure_place2d_and_ramp r t a s) (r ++ ".uv") = true := by
  unfold ensure_place2d_and_ramp
  exact dstOccupied_mono_ensureConnF _ _ _ _
    (dstOccupied_mono_ensureConnNF _ _ _ _ (dstOccupied_ensureConnNF_self _ _ _))

theorem ensure_occupied_uvFilterSize (r t a : String) (s : Scene) :
    dstOccupied (ensure_place2d_and_ramp r t a s) (r ++ ".uvFilterSize") = true := by
  unfold ensure_place2d_and_ramp
  exact dstOccupied_mono_ensureConnF _ _ _ _ (dstOccupied_ensureConnNF_self _ _ _)

theorem ensure_connected_outColor (r t a : String) (s : Scene) :
    isConnected (ensure_place2d_and_ramp r t a s) (r ++ ".outColor") a = true := by
  unfold ensure_place2d_and_ramp
  exact isConnected_ensureConnF_self _ _ _

theorem ensure_nodeCount (r t a : String) (s : Scene)
    (hr : objExists s r = false) (ht : objExists s t = false) :
    nodeCount (ensure_place2d_and_ramp r t a s) r = 1 ∧
    nodeCount (ensure_place2d_and_ramp r t a s) t = 1 := by
  have hzero : ∀ n, objExists s n = false →
      s.nodes.countP (fun p => decide (p.1 = n)) = 0 := by
    intro n hn
    rw [List.countP_eq_zero]
    intro p hp
    simp only [objExists, List.any_eq_false] at hn
    exact hn p hp
  have h1 : ensureNode "ramp" r s = createNode s "ramp" r := by
    unfold ensureNode
    rw [if_neg (by simp [hr])]
  have hcount : ∀ n, nodeCount (ensure_place2d_and_ramp r t a s) n =
      (ensureNode "place2dTexture" t (ensureNode "ramp" r s)).nodes.countP
        (fun p => decide (p.1 = n)) := by
    intro n
    unfold nodeCount
    rw [ensure_nodes_eq]
  by_cases htr : t = r
  · subst htr
    have h2 : objExists (createNode s "ramp" t) t = true := by
      simp [objExists, createNode]
    constructor <;>
    · rw [hcount, h1, ensureNode_noop _ _ _ h2]
      simp [createNode, List.countP_cons, hzero t hr]
  · have hrt : ¬ r = t := fun h => htr h.symm
    have h2 : objExists (createNode s "ramp" r) t = false := by
      have ht' := ht
      unfold objExists at ht'
      simp [objExists, createNode, List.any_cons, ht', hrt]
    have h3 : ensureNode "place2dTexture" t (createNode s "ramp" r) =
        createNode (createNode s "ramp" r) "place2dTexture" t := by
      unfold ensureNode
      rw [if_neg (by simp [h2])]
    constructor
    · rw [hcount, h1, h3]
      simp [createNode, List.countP_cons, hzero r hr, hrt, htr]
    · rw [hcount, h1, h3]
      simp [createNode, List.countP_cons, hzero t ht, htr, hrt]

/-- Claim C9: ensure_place2d_and_ramp is idempotent, so calling it twice
for the same names leaves the scene of the first call unchanged and, when
the nodes did not exist before, exactly one ramp and one place2dTexture
node carry the chosen names; local objects get deterministic names derived
from the object name so a re-run reuses the same nodes, and referenced
objects get names extended by distinct uuid slices, which are distinct. -/
theorem claim_C9 :
    (∀ (r t a : String) (s : Scene),
      ensure_place2d_and_ramp r t a (ensure_place2d_and_ramp r t a s) =
        ensure_place2d_and_ramp r t a s) ∧
    (∀ (r t a : String) (s : Scene),
      objExists s r = false → objExists s t = false →
      nodeCount (ensure_place2d_and_ramp r t a
        (ensure_place2d_and_ramp r t a s)) r = 1 ∧
      nodeCount (ensure_place2d_and_ramp r t a
        (ensure_place2d_and_ramp r t a s)) t = 1) ∧
    (∀ (obj u : String),
      ramp_name_for obj false u = "ramp_" ++ safe_name obj ∧
      texture_name_for obj false u = "place2dTexture_" ++ safe_name obj) ∧
    (∀ (base u1 u2 : String),
      u1.data.take 8 ≠ u2.data.take 8 →
      unique_node_name base u1 ≠ unique_node_name base u2) := by
  have hidem : ∀ (r t a : String) (s : Scene),
      ensure_place2d_and_ramp r t a (ensure_place2d_and_ramp r t a s) =
        ensure_place2d_and_ramp r t a s := fun r t a s =>
    ensure_noop_of_established r t a _
      (ensure_objExists_ramp r t a s) (ensure_objExists_texture r t a s)
      (ensure_occupied_uv r t a s) (ensure_occupied_uvFilterSize r t a s)
      (ensure_connected_outColor r t a s)
  refine ⟨hidem, fun r t a s hr ht => ?_, fun obj u => ⟨rfl, rfl⟩,
    fun base u1 u2 hne heq => ?_⟩
  · rw [hidem]
    exact ensure_nodeCount r t a s hr ht
  · apply hne
    have hd := congrArg String.data heq
    unfold unique_node_name at hd
    simp only [String.data_append] at hd
    exact List.append_cancel_left hd

theorem claim_C9_witness :
    objExists ⟨[], []⟩ "ramp_A" = false ∧
    objExists ⟨[], []⟩ "place2dTexture_A" = false ∧
    nodeCount
      (ensure_place2d_and_ramp "ramp_A" "place2dTexture_A" "shape.aiCurveShader"
        (ensure_place2d_and_ramp "ramp_A" "place2dTexture_A" "shape.aiCurveShader"
          ⟨[], []⟩)) "ramp_A" = 1 ∧
    unique_node_name "ramp_A" "aaaaaaaa" ≠ unique_node_name "ramp_A" "bbbbbbbb" := by
  refine ⟨rfl, rfl,
    (claim_C9.2.1 "ramp_A" "place2dTexture_A" "shape.aiCurveShader" ⟨[], []⟩
      rfl rfl).1,
    claim_C9.2.2.2 "ramp_A" "aaaaaaaa" "bbbbbbbb" ?_⟩
  decide
